import Mathlib

/-!
Shallow embedding of the Mindify backend (`src/backend.js`), a small Express/
Mongoose REST server: anonymous forum posts with replies, self-assessment
tests with a scoring/banding submission handler, a test-result recorder, and
a chat relay guard.  Timestamps are modelled as natural numbers (milliseconds
of `Date.now()`); the Mongo document store is modelled as in-memory lists of
records keyed by identifier strings.
-/

namespace Mindify

/-- An option of a question: `{ text: String, score: Number }` in `TestSchema`. -/
structure QOption where
  text : String
  score : Int
deriving DecidableEq, Repr

/-- A question of a test: `{ question: String, options: [...] }` in `TestSchema`. -/
structure Question where
  question : String
  options : List QOption
deriving DecidableEq, Repr

/-- A `Test` document (`TestSchema` plus its Mongo `_id`). -/
structure Test where
  id : String
  title : String
  description : String
  questions : List Question
deriving DecidableEq, Repr

/-- A reply subdocument (`ReplySchema`): message plus server-assigned timestamp. -/
structure Reply where
  message : String
  timestamp : Nat
deriving DecidableEq, Repr

/-- A `Post` document (`PostSchema` plus its Mongo `_id`). -/
structure Post where
  id : String
  title : String
  content : String
  anonymousId : String
  timestamp : Nat
  replies : List Reply
deriving DecidableEq, Repr

/-- A `TestResult` document (`TestResultSchema`). -/
structure TestResult where
  testId : String
  anonymousId : String
  answers : List Int
  score : Int
  resultSummary : String
  timestamp : Nat
deriving DecidableEq, Repr

/-- The document store: the three Mongo collections used by the backend. -/
structure Store where
  posts : List Post
  tests : List Test
  results : List TestResult
deriving DecidableEq, Repr

/-- JavaScript array indexing `arr[k]` with an integer index `k`: yields the
element when `0 ≤ k < length`, and `undefined` (here `none`) otherwise,
including for negative indices. -/
def jsIndex (l : List QOption) (k : Int) : Option QOption :=
  if h : 0 ≤ k ∧ k.toNat < l.length then some (l.get ⟨k.toNat, h.2⟩) else none

/-- `answers[i]` followed by `q.options[answers[i]]` as in the submit handler:
when `answers` itself is `undefined` (the body omitted the field), reading
`answers[i]` throws a `TypeError`; otherwise `answers[i]` is the `i`-th entry
or `undefined`, and indexing `q.options` with `undefined` yields `undefined`. -/
def jsAnswersGet (answers : Option (List Int)) (i : Nat) : Except String (Option Int) :=
  match answers with
  | none => Except.error "TypeError: cannot read properties of undefined"
  | some l => Except.ok (l.get? i)

/-- The scoring `forEach` loop of `POST /tests/:id/submit`:
`test.questions.forEach((q, i) => { const selectedOption = q.options[answers[i]];
 if (selectedOption) totalScore += selectedOption.score; })`,
with `answers` possibly `undefined`. `i` is the running question index and
`acc` the mutable `totalScore`. -/
def scoreLoopJS (answers : Option (List Int)) : Nat → List Question → Int → Except String Int
  | _, [], acc => Except.ok acc
  | i, q :: qs, acc =>
    match jsAnswersGet answers i with
    | Except.error e => Except.error e
    | Except.ok a =>
      match a.bind (fun k => jsIndex q.options k) with
      | some o => scoreLoopJS answers (i + 1) qs (acc + o.score)
      | none => scoreLoopJS answers (i + 1) qs acc

/-- The same loop when `answers` is an actual array (never throws). -/
def scoreLoop (answers : List Int) : Nat → List Question → Int → Int
  | _, [], acc => acc
  | i, q :: qs, acc =>
    match (answers.get? i).bind (fun k => jsIndex q.options k) with
    | some o => scoreLoop answers (i + 1) qs (acc + o.score)
    | none => scoreLoop answers (i + 1) qs acc

/-- `totalScore` computed by the submit handler for an actual answers array. -/
def totalScore (test : Test) (answers : List Int) : Int :=
  scoreLoop answers 0 test.questions 0

/-- The band computation of the submit handler:
`let resultSummary = 'Low'; if (totalScore > 15) resultSummary = 'Moderate';
 if (totalScore > 25) resultSummary = 'High';`. -/
def resultSummary (totalScore : Int) : String :=
  let r := "Low"
  let r := if totalScore > 15 then "Moderate" else r
  let r := if totalScore > 25 then "High" else r
  r

/-- A JSON response body of one of the route handlers. -/
inductive Body where
  | post (p : Post)
  | posts (ps : List Post)
  | test (t : Test)
  | errorObj (msg : String)
  | scoreResult (score : Int) (resultSummary : String)
  | empty
deriving DecidableEq, Repr

/-- An HTTP response: status code plus JSON body. -/
structure Response where
  status : Nat
  body : Body
deriving DecidableEq, Repr

/-- `Post.findById(id)` on the modelled store. -/
def findPost (s : Store) (id : String) : Option Post :=
  s.posts.find? (fun p => p.id == id)

/-- `Test.findById(id)` on the modelled store. -/
def findTest (s : Store) (id : String) : Option Test :=
  s.tests.find? (fun t => t.id == id)

/-- Handler of `GET /posts/:id`: 404 with an error payload when the post is
absent, otherwise 200 with the post. -/
def getPostById (s : Store) (id : String) : Response :=
  match findPost s id with
  | none => { status := 404, body := Body.errorObj "Post not found" }
  | some p => { status := 200, body := Body.post p }

/-- Handler of `GET /tests/:id`: 404 with an error payload when the test is
absent, otherwise 200 with the test. -/
def getTestById (s : Store) (id : String) : Response :=
  match findTest s id with
  | none => { status := 404, body := Body.errorObj "Test not found" }
  | some t => { status := 200, body := Body.test t }

/-- Handler of `GET /posts`: `Post.find().sort({ timestamp: -1 })`, i.e. all
posts sorted by creation timestamp in descending order (the sort is performed
by the document store; modelled as an insertion sort under the
newest-first relation). -/
def listPosts (s : Store) : List Post :=
  s.posts.insertionSort (fun a b => b.timestamp ≤ a.timestamp)

/-- `post.replies.push({ message })` followed by `save()`: the pushed
subdocument receives the schema default timestamp `Date.now`, here `now`. -/
def appendReply (p : Post) (message : String) (now : Nat) : Post :=
  { p with replies := p.replies ++ [{ message := message, timestamp := now }] }

/-- Handler of `POST /posts/:id/reply`: 404 when the post is absent; otherwise
appends one reply subdocument, saves the updated post, and returns it with 201. -/
def replyToPost (s : Store) (id : String) (message : String) (now : Nat) :
    Response × Store :=
  match findPost s id with
  | none => ({ status := 404, body := Body.errorObj "Post not found" }, s)
  | some p =>
    let updated := appendReply p message now
    ({ status := 201, body := Body.post updated },
     { s with posts := s.posts.map (fun q => if q.id == id then updated else q) })

/-- Handler of `POST /tests/:id/submit`.  `answers` is `none` when the request
body omits the field (then the scoring loop throws on its first iteration, if
any).  On success one `TestResult` is appended to the store — Mongoose casts an
`undefined` array path to `[]` on save — and the response carries the computed
score and band. -/
def submitTest (s : Store) (id : String) (answers : Option (List Int))
    (anonymousId : String) (now : Nat) : Except String (Response × Store) :=
  match findTest s id with
  | none => Except.ok ({ status := 404, body := Body.errorObj "Test not found" }, s)
  | some test =>
    match scoreLoopJS answers 0 test.questions 0 with
    | Except.error e => Except.error e
    | Except.ok tot =>
      let summary := resultSummary tot
      let result : TestResult :=
        { testId := test.id, anonymousId := anonymousId, answers := answers.getD [],
          score := tot, resultSummary := summary, timestamp := now }
      Except.ok ({ status := 200, body := Body.scoreResult tot summary },
                 { s with results := s.results ++ [result] })

/-- Outcome of the `POST /chat` handler up to the outbound call: either an
early 400 rejection, or the outbound completion request carrying the message. -/
inductive ChatOutcome where
  | badRequest (status : Nat) (error : String)
  | outboundCall (message : String)
deriving DecidableEq, Repr

/-- Whether the chat handler reached the outbound completion provider. -/
def makesOutboundCall : ChatOutcome → Bool
  | ChatOutcome.outboundCall _ => true
  | ChatOutcome.badRequest _ _ => false

/-- Handler of `POST /chat`: `if (!message) return res.status(400)...`.  The
`message` field is an optional string; JavaScript treats both `undefined` and
the empty string as falsy, so both are rejected before any outbound call. -/
def chatHandler (message : Option String) : ChatOutcome :=
  match message with
  | none => ChatOutcome.badRequest 400 "No message provided."
  | some m =>
    if m = "" then ChatOutcome.badRequest 400 "No message provided."
    else ChatOutcome.outboundCall m

/-- The score a single question contributes for the answer entry `a`: the
selected option's score when `a` is a valid index into the question's option
list, and 0 when the entry is missing or out of range. -/
def selectedScore (q : Question) (a : Option Int) : Int :=
  match a with
  | none => 0
  | some k =>
    match jsIndex q.options k with
    | some o => o.score
    | none => 0

/-- The spec's formulation of the total score: the sum over the questions of
the score of the option selected by the corresponding entry of the answer
sequence, a missing or out-of-range entry contributing 0. -/
def specScore : List Question → List Int → Int
  | [], _ => 0
  | q :: qs, answers => selectedScore q answers.head? + specScore qs answers.tail

/-! ### Lemmas -/

lemma head?_drop_eq_get? (l : List Int) (i : Nat) : (l.drop i).head? = l.get? i := by
  induction l generalizing i with
  | nil => simp
  | cons a l ih =>
    cases i with
    | zero => rfl
    | succ i => simp only [List.drop_succ_cons, List.get?]; exact ih i

lemma tail_drop_eq_drop_succ (l : List Int) (i : Nat) : (l.drop i).tail = l.drop (i + 1) := by
  induction l generalizing i with
  | nil => simp
  | cons a l ih =>
    cases i with
    | zero => simp
    | succ i => simp only [List.drop_succ_cons, List.get?]; exact ih i

/-- When `answers` is an actual array, the JS scoring loop never throws and
agrees with the pure loop. -/
lemma scoreLoopJS_some (l : List Int) :
    ∀ (qs : List Question) (i : Nat) (acc : Int),
      scoreLoopJS (some l) i qs acc = Except.ok (scoreLoop l i qs acc) := by
  intro qs
  induction qs with
  | nil => intro i acc; rfl
  | cons q qs ih =>
    intro i acc
    show (match (l.get? i).bind (fun k => jsIndex q.options k) with
          | some o => scoreLoopJS (some l) (i + 1) qs (acc + o.score)
          | none => scoreLoopJS (some l) (i + 1) qs acc) = _
    cases h : (l.get? i).bind (fun k => jsIndex q.options k) with
    | some o => simp only [scoreLoop, h, ih]
    | none => simp only [scoreLoop, h, ih]

/-- The accumulator form of the scoring loop computes the spec's sum over the
remaining questions, paired with the answer entries from position `i` on. -/
lemma scoreLoop_eq_specScore (l : List Int) :
    ∀ (qs : List Question) (i : Nat) (acc : Int),
      scoreLoop l i qs acc = acc + specScore qs (l.drop i) := by
  intro qs
  induction qs with
  | nil => intro i acc; simp [scoreLoop, specScore]
  | cons q qs ih =>
    intro i acc
    have hsel : selectedScore q (l.drop i).head? =
        match (l.get? i).bind (fun k => jsIndex q.options k) with
        | some o => o.score
        | none => 0 := by
      rw [head?_drop_eq_get?]
      cases hg : l.get? i with
      | none => rfl
      | some k =>
        show selectedScore q (some k) = _
        unfold selectedScore
        cases hj : jsIndex q.options k with
        | none => simp [hj]
        | some o => simp [hj]
    have hstep : scoreLoop l i (q :: qs) acc =
        match (l.get? i).bind (fun k => jsIndex q.options k) with
        | some o => scoreLoop l (i + 1) qs (acc + o.score)
        | none => scoreLoop l (i + 1) qs acc := rfl
    have hspec : specScore (q :: qs) (l.drop i) =
        selectedScore q (l.drop i).head? + specScore qs (l.drop i).tail := rfl
    rw [hstep, hspec, tail_drop_eq_drop_succ, hsel]
    cases h : (l.get? i).bind (fun k => jsIndex q.options k) with
    | some o =>
      show scoreLoop l (i + 1) qs (acc + o.score) =
        acc + (o.score + specScore qs (l.drop (i + 1)))
      rw [ih (i + 1) (acc + o.score)]
      exact add_assoc acc o.score (specScore qs (l.drop (i + 1)))
    | none =>
      show scoreLoop l (i + 1) qs acc = acc + (0 + specScore qs (l.drop (i + 1)))
      rw [ih (i + 1) acc, zero_add]

/-- The spec's sum over an empty answer sequence is 0. -/
lemma specScore_nil (qs : List Question) : specScore qs [] = 0 := by
  induction qs with
  | nil => rfl
  | cons q qs ih => simp [specScore, selectedScore, ih]

/-- Entries of the answer sequence beyond the question count do not affect
the spec's sum. -/
lemma specScore_take (qs : List Question) :
    ∀ answers : List Int, specScore qs (answers.take qs.length) = specScore qs answers := by
  induction qs with
  | nil => intro answers; rfl
  | cons q qs ih =>
    intro answers
    cases answers with
    | nil => simp [specScore]
    | cons a answers => simp [specScore, List.take, ih]

/-! ### Concrete sample data (used by witnesses and counterexamples) -/

/-- The spec's concrete scenario options, scored `[0, 5, 10, 20]`. -/
def sampleOptions : List QOption :=
  [⟨"Never", 0⟩, ⟨"Sometimes", 5⟩, ⟨"Often", 10⟩, ⟨"Always", 20⟩]

/-- A two-question test in the spec's concrete scenario. -/
def sampleTest : Test :=
  ⟨"t1", "Sample assessment", "two questions", [⟨"Q1", sampleOptions⟩, ⟨"Q2", sampleOptions⟩]⟩

/-- A store holding just `sampleTest`. -/
def sampleStore : Store := ⟨[], [sampleTest], []⟩

/-- A test document with an empty question list. -/
def emptyTest : Test := ⟨"t0", "empty", "no questions", []⟩

/-- A store holding just `emptyTest`. -/
def emptyTestStore : Store := ⟨[], [emptyTest], []⟩

/-- A post with one existing reply. -/
def samplePost : Post :=
  ⟨"p1", "hello", "first post", "anon-1", 100, [⟨"welcome", 101⟩]⟩

/-- A store holding just `samplePost`. -/
def samplePostStore : Store := ⟨[samplePost], [], []⟩

/-! ### Claim theorems -/

/-- C1: for every test (questions with integer-scored option lists) and every
integer answer-index sequence, the submit handler's total score equals the sum
over the questions of the score of the option selected by the corresponding
answer entry, a missing, out-of-range or absent entry contributing 0; and
entries beyond the question count do not affect the total. -/
theorem submit_score_is_spec_sum (test : Test) (answers : List Int) :
    totalScore test answers = specScore test.questions answers ∧
    totalScore test answers = totalScore test (answers.take test.questions.length) := by
  constructor
  · show scoreLoop answers 0 test.questions 0 = _
    rw [scoreLoop_eq_specScore, zero_add, List.drop_zero]
  · show scoreLoop answers 0 test.questions 0 =
      scoreLoop (answers.take test.questions.length) 0 test.questions 0
    rw [scoreLoop_eq_specScore, scoreLoop_eq_specScore, zero_add, zero_add,
      List.drop_zero, List.drop_zero, specScore_take]

/-- C2: the band is "Low" exactly when the total is at most 15, "Moderate"
exactly when it is strictly between 15 and at most 25, and "High" exactly when
it exceeds 25; in particular 15 yields "Low", 16 and 25 yield "Moderate", and
26 yields "High". -/
theorem band_thresholds (t : Int) :
    (resultSummary t = "Low" ↔ t ≤ 15) ∧
    (resultSummary t = "Moderate" ↔ 15 < t ∧ t ≤ 25) ∧
    (resultSummary t = "High" ↔ 25 < t) ∧
    resultSummary 15 = "Low" ∧ resultSummary 16 = "Moderate" ∧
    resultSummary 25 = "Moderate" ∧ resultSummary 26 = "High" := by
  have hv : resultSummary t =
      if 25 < t then "High" else if 15 < t then "Moderate" else "Low" := rfl
  refine ⟨?_, ?_, ?_, by decide, by decide, by decide, by decide⟩ <;>
    · rw [hv]
      split_ifs <;> simp <;> omega

/-- C6: a chat request whose body has no message field is answered with
HTTP 400 and an error payload, and no outbound call to the completion
provider is made. -/
theorem chat_missing_message_400 :
    chatHandler none = ChatOutcome.badRequest 400 "No message provided." ∧
    makesOutboundCall (chatHandler none) = false :=
  ⟨rfl, rfl⟩

/-- C10: a chat request whose message field is the empty string is likewise
answered with HTTP 400 and no outbound call is made: the guard rejects any
falsy message value, not only an absent field. -/
theorem chat_empty_message_400 :
    chatHandler (some "") = ChatOutcome.badRequest 400 "No message provided." ∧
    makesOutboundCall (chatHandler (some "")) = false := by
  constructor <;> simp [chatHandler, makesOutboundCall]

/-- C3: submitting the empty answer sequence against any existing test yields
total score 0 and band "Low", and records exactly that result. -/
theorem submit_empty_answers (s : Store) (id anon : String) (now : Nat) (test : Test)
    (h : findTest s id = some test) :
    submitTest s id (some []) anon now =
      Except.ok
        ({ status := 200, body := Body.scoreResult 0 "Low" },
         { s with results := s.results ++
             [{ testId := test.id, anonymousId := anon, answers := [],
                score := 0, resultSummary := "Low", timestamp := now }] }) := by
  have h0 : scoreLoop [] 0 test.questions 0 = 0 := by
    rw [scoreLoop_eq_specScore, zero_add, List.drop_zero, specScore_nil]
  unfold submitTest
  simp only [h]
  rw [scoreLoopJS_some, h0]
  rfl

/-- C3 witness: the empty submission against the concrete two-question sample
test scores 0 with band "Low". -/
theorem submit_empty_answers_witness :
    findTest sampleStore "t1" = some sampleTest ∧
    submitTest sampleStore "t1" (some []) "anon" 7 =
      Except.ok
        ({ status := 200, body := Body.scoreResult 0 "Low" },
         { sampleStore with results := sampleStore.results ++
             [{ testId := sampleTest.id, anonymousId := "anon", answers := [],
                score := 0, resultSummary := "Low", timestamp := 7 }] }) :=
  ⟨by decide, submit_empty_answers sampleStore "t1" "anon" 7 sampleTest (by decide)⟩

/-- C4: fetching a post or test by an identifier absent from the store returns
HTTP 404 with a JSON error payload — never a 500 and never a 200 with an empty
body. -/
theorem get_missing_id_404 (s : Store) (id : String) :
    (findPost s id = none →
      getPostById s id = { status := 404, body := Body.errorObj "Post not found" } ∧
      (getPostById s id).status ≠ 500 ∧
      ¬((getPostById s id).status = 200 ∧ (getPostById s id).body = Body.empty)) ∧
    (findTest s id = none →
      getTestById s id = { status := 404, body := Body.errorObj "Test not found" } ∧
      (getTestById s id).status ≠ 500 ∧
      ¬((getTestById s id).status = 200 ∧ (getTestById s id).body = Body.empty)) := by
  constructor
  · intro hp
    have hP : getPostById s id = { status := 404, body := Body.errorObj "Post not found" } := by
      unfold getPostById; rw [hp]
    refine ⟨hP, ?_, ?_⟩ <;> rw [hP] <;> decide
  · intro ht
    have hT : getTestById s id = { status := 404, body := Body.errorObj "Test not found" } := by
      unfold getTestById; rw [ht]
    refine ⟨hT, ?_, ?_⟩ <;> rw [hT] <;> decide

/-- C4 witness: on the concrete sample store, the identifier "t1" is absent
from the posts collection (though it names an existing test), so the post
fetch route answers 404; the identifier "missing" is absent from the tests
collection, so the test fetch route answers 404. -/
theorem get_missing_id_404_witness :
    findPost sampleStore "t1" = none ∧
    getPostById sampleStore "t1" =
      { status := 404, body := Body.errorObj "Post not found" } ∧
    findTest sampleStore "missing" = none ∧
    getTestById sampleStore "missing" =
      { status := 404, body := Body.errorObj "Test not found" } :=
  ⟨by decide,
   ((get_missing_id_404 sampleStore "t1").1 (by decide)).1,
   by decide,
   ((get_missing_id_404 sampleStore "missing").2 (by decide)).1⟩

/-- C5: replying to an existing post appends exactly one reply subdocument
carrying the message and the server-assigned timestamp; the prior replies are
unchanged in value and position, no other field of the post changes, and the
handler answers 201 with the updated post saved back to the store. -/
theorem reply_appends_one (s : Store) (id m : String) (now : Nat) (p : Post)
    (h : findPost s id = some p) :
    (appendReply p m now).replies = p.replies ++ [{ message := m, timestamp := now }] ∧
    (appendReply p m now).replies.take p.replies.length = p.replies ∧
    (appendReply p m now).replies.length = p.replies.length + 1 ∧
    (appendReply p m now).id = p.id ∧
    (appendReply p m now).title = p.title ∧
    (appendReply p m now).content = p.content ∧
    (appendReply p m now).anonymousId = p.anonymousId ∧
    (appendReply p m now).timestamp = p.timestamp ∧
    replyToPost s id m now =
      ({ status := 201, body := Body.post (appendReply p m now) },
       { s with posts := s.posts.map (fun q => if q.id == id then appendReply p m now else q) }) := by
  refine ⟨rfl, ?_, by simp [appendReply], rfl, rfl, rfl, rfl, rfl, ?_⟩
  · show (p.replies ++ [Reply.mk m now]).take p.replies.length = p.replies
    exact List.take_left p.replies _
  · unfold replyToPost
    rw [h]

/-- C5 witness: replying to the concrete sample post (which already has one
reply) appends exactly the new reply after the old one. -/
theorem reply_appends_one_witness :
    findPost samplePostStore "p1" = some samplePost ∧
    (appendReply samplePost "thanks" 200).replies =
      samplePost.replies ++ [{ message := "thanks", timestamp := 200 }] ∧
    (appendReply samplePost "thanks" 200).replies.take samplePost.replies.length =
      samplePost.replies :=
  ⟨by decide,
   (reply_appends_one samplePostStore "p1" "thanks" 200 samplePost (by decide)).1,
   (reply_appends_one samplePostStore "p1" "thanks" 200 samplePost (by decide)).2.1⟩

/-- C7: a submission against an existing test persists exactly one
`TestResult` carrying the test identifier, the anonymous identifier, the
original answer sequence, the computed score and band, and the persistence
timestamp; the write succeeds and the response returns the score and band. -/
theorem submit_records_result (s : Store) (id anon : String) (answers : List Int)
    (now : Nat) (test : Test) (h : findTest s id = some test) :
    submitTest s id (some answers) anon now =
      Except.ok
        ({ status := 200,
           body := Body.scoreResult (totalScore test answers)
                     (resultSummary (totalScore test answers)) },
         { s with results := s.results ++
             [{ testId := test.id, anonymousId := anon, answers := answers,
                score := totalScore test answers,
                resultSummary := resultSummary (totalScore test answers),
                timestamp := now }] }) := by
  unfold submitTest
  simp only [h]
  rw [scoreLoopJS_some]
  rfl

/-- C7 witness: the spec's concrete scenario — answers `[3, 2]` against the
two-question sample test score 20 + 10 = 30 with band "High", and exactly that
result is recorded. -/
theorem submit_records_result_witness :
    findTest sampleStore "t1" = some sampleTest ∧
    submitTest sampleStore "t1" (some [3, 2]) "anon" 7 =
      Except.ok
        ({ status := 200, body := Body.scoreResult 30 "High" },
         { sampleStore with results := sampleStore.results ++
             [{ testId := sampleTest.id, anonymousId := "anon", answers := [3, 2],
                score := 30, resultSummary := "High", timestamp := 7 }] }) :=
  ⟨by decide, submit_records_result sampleStore "t1" "anon" [3, 2] 7 sampleTest (by decide)⟩

/-- C8: listing posts returns the full content of the posts collection (a
permutation of it, so every post appears, and nothing else does) sorted by
creation timestamp in descending order, i.e. newest first. -/
theorem listPosts_newest_first (s : Store) :
    List.Perm (listPosts s) s.posts ∧
    List.Sorted (fun a b => b.timestamp ≤ a.timestamp) (listPosts s) ∧
    ∀ p : Post, p ∈ listPosts s ↔ p ∈ s.posts := by
  haveI : IsTotal Post (fun a b => b.timestamp ≤ a.timestamp) :=
    ⟨fun a b => le_total b.timestamp a.timestamp⟩
  haveI : IsTrans Post (fun a b => b.timestamp ≤ a.timestamp) :=
    ⟨fun _ _ _ h1 h2 => le_trans h2 h1⟩
  refine ⟨List.perm_insertionSort _ _, List.sorted_insertionSort _ _, fun p => ?_⟩
  exact (List.perm_insertionSort _ s.posts).mem_iff

/-- C9 counterexample: against an existing test with an empty question list,
a submission whose body omits the answers field does NOT terminate abnormally:
the scoring loop body never runs, so the handler returns 200 with a score-0,
band-"Low" result and records it. -/
theorem submit_absent_answers_no_questions_succeeds :
    submitTest emptyTestStore "t0" none "anon" 3 =
      Except.ok
        ({ status := 200, body := Body.scoreResult 0 "Low" },
         { posts := [], tests := [emptyTest],
           results := [{ testId := "t0", anonymousId := "anon", answers := [],
                         score := 0, resultSummary := "Low", timestamp := 3 }] }) := by
  rfl

/-- C9 (amended): against an existing test with at least one question, a
submission whose body omits the answers field makes the scoring loop's first
indexing into the absent value throw a TypeError, so the handler terminates
abnormally instead of returning a 200 response; and the scoring computation is
total whenever the answers value is an actual (possibly empty) list. -/
theorem submit_absent_answers_throws (s : Store) (id anon : String) (now : Nat)
    (test : Test) (h : findTest s id = some test) (hq : test.questions ≠ []) :
    submitTest s id none anon now =
      Except.error "TypeError: cannot read properties of undefined" ∧
    ∀ l : List Int, ∃ v, submitTest s id (some l) anon now = Except.ok v := by
  constructor
  · unfold submitTest
    simp only [h]
    cases hqq : test.questions with
    | nil => exact absurd hqq hq
    | cons q qs => rfl
  · intro l
    refine ⟨({ status := 200,
               body := Body.scoreResult (totalScore test l)
                         (resultSummary (totalScore test l)) },
             { s with results := s.results ++
                 [{ testId := test.id, anonymousId := anon, answers := l,
                    score := totalScore test l,
                    resultSummary := resultSummary (totalScore test l),
                    timestamp := now }] }), ?_⟩
    unfold submitTest
    simp only [h]
    rw [scoreLoopJS_some]
    rfl

/-- C9 (amended) witness: against the concrete two-question sample test, a
submission with the answers field absent throws, while an actual answer list
succeeds. -/
theorem submit_absent_answers_throws_witness :
    findTest sampleStore "t1" = some sampleTest ∧ sampleTest.questions ≠ [] ∧
    submitTest sampleStore "t1" none "anon" 7 =
      Except.error "TypeError: cannot read properties of undefined" :=
  ⟨by decide, by decide,
   (submit_absent_answers_throws sampleStore "t1" "anon" 7 sampleTest
     (by decide) (by decide)).1⟩

end Mindify
